import Mathlib

/-!
# Product catalog service: shallow embedding and verification

This file embeds the product CRUD service (Flask routes in
`service/routes.py`, Product record model and store queries described in
the specification) into Lean 4 and proves the specification's claims
about it.

The repository ships `service/routes.py` together with its test suites;
the record-model module (`service.models`: the `Product` entity,
`serialize`/`deserialize`, the store queries) and the error-handler
module (`service.common`) are referenced but their sources are not
available, so those parts are modelled from the specification's own
description (each such definition says so in its doc comment).  The
route handlers themselves are translated directly from
`service/routes.py`.
-/

/-- Modelled from the spec: the `Category` enumeration of
`service.models` (not under `src/`).  The spec names the member set
`{UNKNOWN, CLOTHS, FOOD, HOUSEWARES, AUTOMOTIVE, TOOLS, ...}`;
the members exercised by the test suites are exactly these six. -/
inductive Category where
  | UNKNOWN
  | CLOTHS
  | FOOD
  | HOUSEWARES
  | AUTOMOTIVE
  | TOOLS
deriving DecidableEq, Repr

/-- The symbolic name of an enum member, as serialized on the wire
("`category` and all enums serialized as their symbolic name"). -/
def Category.name : Category → String
  | .UNKNOWN => "UNKNOWN"
  | .CLOTHS => "CLOTHS"
  | .FOOD => "FOOD"
  | .HOUSEWARES => "HOUSEWARES"
  | .AUTOMOTIVE => "AUTOMOTIVE"
  | .TOOLS => "TOOLS"

/-- Member lookup by exact symbolic name, the embedding of Python's
`getattr(Category, s)`: `some` the member when `s` names one,
`none` (an `AttributeError` in Python) otherwise. -/
def Category.fromName (s : String) : Option Category :=
  if s = "UNKNOWN" then some .UNKNOWN
  else if s = "CLOTHS" then some .CLOTHS
  else if s = "FOOD" then some .FOOD
  else if s = "HOUSEWARES" then some .HOUSEWARES
  else if s = "AUTOMOTIVE" then some .AUTOMOTIVE
  else if s = "TOOLS" then some .TOOLS
  else none

/-- Modelled from the spec: the `Product` record of `service.models`
(not under `src/`).  `id` is server-assigned and absent (`none`)
before persistence; `price` is a decimal value, modelled as a rational
("stored and compared with decimal precision, not floating-point"). -/
structure Product where
  id : Option Nat
  name : String
  description : String
  price : Rat
  available : Bool
  category : Category
deriving DecidableEq, Repr

/-- A freshly constructed, unpersisted `Product()` with the spec's
defaults: no id, empty name and description, `UNKNOWN` category. -/
def Product.new : Product :=
  { id := none, name := "", description := "", price := 0,
    available := true, category := .UNKNOWN }

/-- A JSON wire value.  A string-formatted decimal (the spec serializes
`price` "as a string-formatted decimal to avoid floating-point drift")
is modelled by the decimal value it denotes, constructor `jdec`,
keeping the decimal/float and decimal/plain-string distinctions without
committing to a concrete digit rendering. -/
inductive JVal where
  | jnull
  | jbool (b : Bool)
  | jint (n : Nat)
  | jdec (q : Rat)
  | jstr (s : String)
deriving DecidableEq, Repr

/-- A JSON object payload for a product, each field `none` when the key
is absent from the body. -/
structure Payload where
  id : Option JVal := none
  name : Option JVal := none
  description : Option JVal := none
  price : Option JVal := none
  available : Option JVal := none
  category : Option JVal := none
deriving DecidableEq, Repr

/-- Modelled from the spec: `serialize` of `service.models` (not under
`src/`): "produces a key-value payload with `id`, `name`,
`description`, `price` (as decimal string), `available` (boolean),
`category` (enum member name as string)". -/
def Product.serialize (p : Product) : Payload :=
  { id := some (match p.id with | some n => .jint n | none => .jnull),
    name := some (.jstr p.name),
    description := some (.jstr p.description),
    price := some (.jdec p.price),
    available := some (.jbool p.available),
    category := some (.jstr p.category.name) }

/-- Python's `str.upper()` on a string: uppercase every character
(character-wise, which agrees with Python on the ASCII strings the
service compares). -/
def strUpper (s : String) : String :=
  String.mk (s.data.map Char.toUpper)

/-- Modelled from the spec: `deserialize` of `service.models` (not
under `src/`): required key `name` (validation error if absent or wrong
type); optional keys `description`, `price`, `available`, `category`
keep the record's current value when absent; `category` must match a
member by name (case-insensitive uppercase match); unrecognized or
wrong-typed values fail with a validation error naming the bad
attribute.  The payload's `id` key is never read: the record's own `id`
is preserved ("deserializes body into existing record, preserving its
`id`"). -/
def Product.deserialize (self : Product) (d : Payload) :
    Except String Product := do
  let name ← match d.name with
    | some (.jstr s) => pure s
    | some _ => throw "Invalid type for string [name]"
    | none => throw "Invalid product: missing name"
  let description ← match d.description with
    | some (.jstr s) => pure s
    | some _ => throw "Invalid type for string [description]"
    | none => pure self.description
  let price ← match d.price with
    | some (.jdec q) => pure q
    | some _ => throw "Invalid type for decimal [price]"
    | none => pure self.price
  let available ← match d.available with
    | some (.jbool b) => pure b
    | some _ => throw "Invalid type for boolean [available]"
    | none => pure self.available
  let category ← match d.category with
    | some (.jstr s) =>
      match Category.fromName (strUpper s) with
      | some c => pure c
      | none => throw ("Invalid attribute: " ++ s)
    | some _ => throw "Invalid type for string [category]"
    | none => pure self.category
  pure { id := self.id, name := name, description := description,
         price := price, available := available, category := category }

/-- The spec's §8 sample record: `{"name":"Fedora","description":
"A red hat","price":"12.50","available":true,"category":"CLOTHS"}`. -/
def fedora : Product :=
  { id := some 3, name := "Fedora", description := "A red hat",
    price := Rat.mk' 25 2 (by decide) (by decide),
    available := true, category := .CLOTHS }

/-! ## Store and query layer -/

/-- Modelled from the spec: the relational store behind
`service.models` (not under `src/`).  The store "assigns `id` values
monotonically/uniquely on insert"; it is modelled as the list of
persisted rows plus the next id to assign. -/
structure DB where
  nextId : Nat
  rows : List Product
deriving DecidableEq, Repr

/-- The store after the test suites' per-test cleanup: no rows. -/
def DB.empty : DB := { nextId := 1, rows := [] }

/-- Modelled from the spec: `Product.all()` — "returns every persisted
record, store-defined order". -/
def Product.all (db : DB) : List Product :=
  db.rows

/-- Modelled from the spec: `Product.find(id)` — "returns the record
with the given id, or a not-found sentinel (never throws for
absence)". -/
def Product.find (db : DB) (i : Nat) : Option Product :=
  db.rows.find? (fun r => r.id == some i)

/-- Modelled from the spec: `Product.find_by_name(name)` — "returns
all records with exact case-sensitive match on `name`". -/
def Product.find_by_name (db : DB) (n : String) : List Product :=
  db.rows.filter (fun r => r.name == n)

/-- Modelled from the spec: `Product.find_by_category(category_enum)`
— "returns all records whose `category` equals the given enum
value". -/
def Product.find_by_category (db : DB) (c : Category) : List Product :=
  db.rows.filter (fun r => r.category == c)

/-- Modelled from the spec: `Product.find_by_availability(bool)` —
"returns all records whose `available` equals the given boolean". -/
def Product.find_by_availability (db : DB) (b : Bool) : List Product :=
  db.rows.filter (fun r => r.available == b)

/-- Modelled from the spec: `Product.create()` — "persists a new
record; assigns the generated `id`".  Returns the persisted record
(with its fresh id) and the new store state. -/
def Product.create (p : Product) (db : DB) : Product × DB :=
  let q := { p with id := some db.nextId }
  (q, { nextId := db.nextId + 1, rows := db.rows ++ [q] })

/-- Modelled from the spec: `Product.update()` — "persists changes to
an existing record identified by its current `id`". -/
def Product.update (p : Product) (db : DB) : DB :=
  { db with rows := db.rows.map (fun r => if r.id == p.id then p else r) }

/-- Modelled from the spec: `Product.delete()` — "removes the record
from the store" (hard delete). -/
def Product.delete (p : Product) (db : DB) : DB :=
  { db with rows := db.rows.filter (fun r => !(r.id == p.id)) }

/-! ## HTTP layer -/

/-- An HTTP response body. -/
inductive Body where
  | empty
  | text (s : String)
  | json (v : Payload)
  | jsonList (l : List Payload)
deriving DecidableEq, Repr

/-- An HTTP response: status code, body, optional `Location` header. -/
structure Response where
  status : Nat
  body : Body
  location : Option String := none
deriving DecidableEq, Repr

/-- The canonical read URL of a persisted product, the embedding of
`url_for("get_products", product_id=product.id)` (path part). -/
def readUrl (p : Product) : String :=
  "/products/" ++ (match p.id with | some i => toString i | none => "None")

/-- Python truthiness of an optional query-parameter string:
`request.args.get` yields `None` for an absent key, and `if param:`
in `list_products` is false for both `None` and the empty string.
Normalizes a parameter to `some` of its value exactly when the source's
`if` would take the branch. -/
def truthyVal : Option String → Option String
  | none => none
  | some s => if s = "" then none else some s

/-- Modelled from the spec: the store boundary's coercion of the raw
`available` query string (passed through unconverted by
`list_products`) to a boolean — the store driver is an external
collaborator accepting the usual boolean literals, case-insensitively;
anything else is a store error. -/
def strToBool (s : String) : Option Bool :=
  let u := strUpper s
  if u = "TRUE" ∨ u = "T" ∨ u = "YES" ∨ u = "Y" ∨ u = "ON" ∨ u = "1" then
    some true
  else if u = "FALSE" ∨ u = "F" ∨ u = "NO" ∨ u = "N" ∨ u = "OFF" ∨ u = "0" then
    some false
  else none

/-- An uncaught exception inside a handler surfaces as a 500 response
(modelled from the spec, §7: store/errors "propagate as 5xx"; the
error-handler module is not under `src/`). -/
def internalServerError : Response :=
  { status := 500, body := .text "Internal Server Error" }

/-- The function `check_content_type` from `service/routes.py`: aborts 415 when the
`Content-Type` header is absent, returns when it equals the expected
type, and aborts 415 otherwise.  `none` means the check passed. -/
def check_content_type (hdr : Option String) (content_type : String) :
    Option Response :=
  match hdr with
  | none =>
    some { status := 415, body := .text ("Content-Type must be " ++ content_type) }
  | some c =>
    if c = content_type then none
    else
      some { status := 415, body := .text ("Content-Type must be " ++ content_type) }

/-- The handler `create_products` from `service/routes.py`: check the content
type, deserialize the body into a fresh `Product()`, persist it, and
answer 201 with the serialized record and a `Location` header; a
deserialization failure (`DataValidationError`) maps to 400 per the
spec's error taxonomy (the error-handler module is not under
`src/`). -/
def create_products (hdr : Option String) (data : Payload) (db : DB) :
    Response × DB :=
  match check_content_type hdr "application/json" with
  | some resp => (resp, db)
  | none =>
    match Product.deserialize Product.new data with
    | .error msg => ({ status := 400, body := .text msg }, db)
    | .ok p =>
      let (q, db') := Product.create p db
      ({ status := 201, body := .json (Product.serialize q),
         location := some (readUrl q) }, db')

/-- The handler `list_products` from `service/routes.py`: filter by `name` if that
parameter is truthy, else by `category` (member lookup via
`getattr(Category, category.upper())`, which raises for a non-member
and surfaces as an unhandled 500), else by `available` (raw string
handed to the store), else list all; 200 with the serialized list. -/
def list_products (name category availability : Option String) (db : DB) :
    Response :=
  match truthyVal name with
  | some n =>
    { status := 200,
      body := .jsonList ((Product.find_by_name db n).map Product.serialize) }
  | none =>
    match truthyVal category with
    | some c =>
      match Category.fromName (strUpper c) with
      | some ce =>
        { status := 200,
          body := .jsonList ((Product.find_by_category db ce).map Product.serialize) }
      | none => internalServerError
    | none =>
      match truthyVal availability with
      | some a =>
        match strToBool a with
        | some b =>
          { status := 200,
            body := .jsonList ((Product.find_by_availability db b).map Product.serialize) }
        | none => internalServerError
      | none =>
        { status := 200,
          body := .jsonList ((Product.all db).map Product.serialize) }

/-- The handler `get_products` from `service/routes.py`: 404 with a message naming
the id when absent, else 200 with the serialized record. -/
def get_products (product_id : Nat) (db : DB) : Response :=
  match Product.find db product_id with
  | none =>
    { status := 404,
      body := .text ("No product found with id " ++ toString product_id) }
  | some p => { status := 200, body := .json (Product.serialize p) }

/-- The handler `update_product` from `service/routes.py`: check content type
(415), look up the record (404 with a message naming the id),
deserialize the body into the found record (validation failure → 400
per the spec's error taxonomy), persist, 200 with the serialized
updated record. -/
def update_product (product_id : Nat) (hdr : Option String) (data : Payload)
    (db : DB) : Response × DB :=
  match check_content_type hdr "application/json" with
  | some resp => (resp, db)
  | none =>
    match Product.find db product_id with
    | none =>
      ({ status := 404,
         body := .text ("No product found with id " ++ toString product_id) }, db)
    | some q =>
      match Product.deserialize q data with
      | .error msg => ({ status := 400, body := .text msg }, db)
      | .ok r => ({ status := 200, body := .json (Product.serialize r) },
                  Product.update r db)

/-- The handler `delete_product` from `service/routes.py`: 404 with a message
naming the id when absent, else delete and answer 204 with an empty
body. -/
def delete_product (product_id : Nat) (db : DB) : Response × DB :=
  match Product.find db product_id with
  | none =>
    ({ status := 404,
       body := .text ("No product found with id " ++ toString product_id) }, db)
  | some q => ({ status := 204, body := .empty }, Product.delete q db)

/-- A second persisted sample product, differing from `fedora` in
every filterable field. -/
def screwdriver : Product :=
  { id := some 2, name := "Screwdriver", description := "Flat head",
    price := (5 : Rat), available := false, category := .TOOLS }

/-- A store holding two persisted products. -/
def db0 : DB :=
  { nextId := 3, rows := [{ fedora with id := some 1 }, screwdriver] }

/-- A payload with every key absent (e.g. an empty JSON object). -/
def emptyPayload : Payload := {}

/-! ## Helper lemmas -/

/-- Uppercasing a category member's symbolic name resolves back to the
member: the serialized names are already uppercase. -/
theorem fromName_name (c : Category) :
    Category.fromName (strUpper c.name) = some c := by
  cases c <;> rfl

/-- Deserializing a serialized product into any record reconstructs
every field of the product except `id`, which stays the record's
own. -/
theorem deserialize_serialize (self p : Product) :
    Product.deserialize self (Product.serialize p) =
      Except.ok { p with id := self.id } := by
  cases p with
  | mk id name description price available category =>
    cases category <;> rfl

/-- The query `find_by_name` is the exact name filter over all rows. -/
theorem find_by_name_filter (db : DB) (n : String) :
    Product.find_by_name db n =
      (Product.all db).filter (fun r => r.name = n) := by
  refine List.filter_congr ?_
  intro a _
  by_cases h : a.name = n <;> simp [h]

/-- The query `find_by_category` is the exact category filter over all rows. -/
theorem find_by_category_filter (db : DB) (c : Category) :
    Product.find_by_category db c =
      (Product.all db).filter (fun r => r.category = c) := by
  refine List.filter_congr ?_
  intro a _
  by_cases h : a.category = c <;> simp [h]

/-- The query `find_by_availability` is the exact availability filter over all
rows. -/
theorem find_by_availability_filter (db : DB) (b : Bool) :
    Product.find_by_availability db b =
      (Product.all db).filter (fun r => r.available = b) := by
  refine List.filter_congr ?_
  intro a _
  by_cases h : a.available = b <;> simp [h]

/-! ## The specification's claims -/

/-- C4: for every valid payload `p`, deserializing the serialization
of `p` yields a product equal to `p` on all fields except `id` when
`id` is unset — serialization round-trips through `deserialize` into a
fresh record, recovering every field but the (unset) id. -/
theorem deserialize_serialize_roundtrip (p : Product) :
    Product.deserialize Product.new (Product.serialize p) =
      Except.ok { p with id := none } ∧
    (p.id = none →
      Product.deserialize Product.new (Product.serialize p) = Except.ok p) := by
  constructor
  · exact deserialize_serialize Product.new p
  · intro h
    rw [deserialize_serialize Product.new p]
    cases p
    simp_all [Product.new]

/-- C4 witness: the sample record with unset id round-trips through
serialization unchanged. -/
theorem deserialize_serialize_roundtrip_witness :
    ({ fedora with id := none } : Product).id = none ∧
    (Product.deserialize Product.new
        (Product.serialize { fedora with id := none }) =
      Except.ok { { fedora with id := none } with id := none } ∧
    (({ fedora with id := none } : Product).id = none →
      Product.deserialize Product.new
          (Product.serialize { fedora with id := none }) =
        Except.ok { fedora with id := none })) :=
  ⟨rfl, deserialize_serialize_roundtrip { fedora with id := none }⟩

/-- C10: a filter query parameter supplied with an empty-string value
is treated exactly as an absent parameter: each filter tests Python
truthiness, so `list_products` falls through to the next filter (or to
listing all). -/
theorem empty_params_treated_absent (nm c a : Option String) (db : DB) :
    list_products (some "") c a db = list_products none c a db ∧
    list_products nm (some "") a db = list_products nm none a db ∧
    list_products nm c (some "") db = list_products nm c none db := by
  refine ⟨?_, ?_, ?_⟩ <;> simp [list_products, truthyVal]

/-- C2: when several query parameters are supplied to the list
endpoint, only the highest-precedence truthy one is honored: a truthy
`name` makes `category` and `available` irrelevant, and a truthy
`category` (with no truthy `name`) makes `available` irrelevant. -/
theorem list_products_precedence (db : DB) (n c : String)
    (cat avail : Option String) (hn : n ≠ "") (hc : c ≠ "") :
    list_products (some n) cat avail db = list_products (some n) none none db ∧
    list_products none (some c) avail db = list_products none (some c) none db := by
  constructor <;> simp [list_products, truthyVal, hn, hc]

/-- C2 witness: with name, category and availability all supplied,
the response equals the name-only response, and with category and
availability supplied it equals the category-only response. -/
theorem list_products_precedence_witness :
    ("Fedora" : String) ≠ "" ∧ ("TOOLS" : String) ≠ "" ∧
    (list_products (some "Fedora") (some "FOOD") (some "False") DB.empty =
      list_products (some "Fedora") none none DB.empty ∧
    list_products none (some "TOOLS") (some "False") DB.empty =
      list_products none (some "TOOLS") none DB.empty) :=
  ⟨by decide, by decide,
    list_products_precedence DB.empty "Fedora" "TOOLS"
      (some "FOOD") (some "False") (by decide) (by decide)⟩

/-- C1: with a single filter parameter supplied, the list endpoint
returns exactly the serialized subset of persisted products matching
it — by name (exact match), by category (the enum member the
uppercased parameter names), or by availability (the boolean the
parameter denotes). -/
theorem list_products_filter_exact (db : DB) (n c v : String)
    (ce : Category) (b : Bool)
    (hn : n ≠ "") (hc : c ≠ "") (hv : v ≠ "")
    (hce : Category.fromName (strUpper c) = some ce)
    (hb : strToBool v = some b) :
    list_products (some n) none none db =
      { status := 200,
        body := .jsonList
          (((Product.all db).filter (fun r => r.name = n)).map Product.serialize) } ∧
    list_products none (some c) none db =
      { status := 200,
        body := .jsonList
          (((Product.all db).filter (fun r => r.category = ce)).map Product.serialize) } ∧
    list_products none none (some v) db =
      { status := 200,
        body := .jsonList
          (((Product.all db).filter (fun r => r.available = b)).map Product.serialize) } := by
  refine ⟨?_, ?_, ?_⟩
  · simp [list_products, truthyVal, hn, find_by_name_filter]
  · simp [list_products, truthyVal, hc, hce, find_by_category_filter]
  · simp [list_products, truthyVal, hv, hb, find_by_availability_filter]


/-- C1 witness: on a concrete two-product store, each single-filter
query returns exactly the matching serialized subset. -/
theorem list_products_filter_exact_witness :
    ("Fedora" : String) ≠ "" ∧ ("cloths" : String) ≠ "" ∧
    ("True" : String) ≠ "" ∧
    Category.fromName (strUpper "cloths") = some Category.CLOTHS ∧
    strToBool "True" = some true ∧
    (list_products (some "Fedora") none none db0 =
      { status := 200,
        body := .jsonList
          (((Product.all db0).filter (fun r => r.name = "Fedora")).map Product.serialize) } ∧
    list_products none (some "cloths") none db0 =
      { status := 200,
        body := .jsonList
          (((Product.all db0).filter (fun r => r.category = Category.CLOTHS)).map Product.serialize) } ∧
    list_products none none (some "True") db0 =
      { status := 200,
        body := .jsonList
          (((Product.all db0).filter (fun r => r.available = true)).map Product.serialize) }) :=
  ⟨by decide, by decide, by decide, by decide, by decide,
    list_products_filter_exact db0 "Fedora" "cloths" "True" Category.CLOTHS true
      (by decide) (by decide) (by decide) (by decide) (by decide)⟩

/-- C3 is false as stated: a `category` query value that names no enum
member does not produce a 400 — the member lookup raises an unhandled
error and the response is the 500 internal-server-error response. -/
theorem list_products_bad_category_cex :
    Category.fromName (strUpper "SPORTS") = none ∧
    (list_products none (some "SPORTS") none DB.empty).status = 500 ∧
    ¬(list_products none (some "SPORTS") none DB.empty).status = 400 := by
  decide

/-- C3 (amended): for every list request with no truthy `name` whose
truthy `category` parameter (uppercased) names no member of the
`Category` enumeration, the member lookup raises an unhandled error
and the response is the 500 internal-server-error response (not
400). -/
theorem list_products_bad_category_500 (db : DB) (nm avail : Option String)
    (c : String) (hnm : truthyVal nm = none) (hc : c ≠ "")
    (h : Category.fromName (strUpper c) = none) :
    list_products nm (some c) avail db = internalServerError := by
  simp only [list_products]
  rw [hnm]
  simp [truthyVal, hc, h]

/-- C3 (amended) witness: the bad-category request on the empty store
yields the 500 response. -/
theorem list_products_bad_category_500_witness :
    truthyVal none = none ∧ ("SPORTS" : String) ≠ "" ∧
    Category.fromName (strUpper "SPORTS") = none ∧
    list_products none (some "SPORTS") none DB.empty = internalServerError :=
  ⟨rfl, by decide, by decide,
    list_products_bad_category_500 DB.empty none none "SPORTS" rfl
      (by decide) (by decide)⟩

/-- Any successful deserialization keeps the receiving record's `id`:
the payload's `id` key is never read. -/
theorem deserialize_ok_id (self : Product) (d : Payload) (r : Product)
    (h : Product.deserialize self d = Except.ok r) : r.id = self.id := by
  unfold Product.deserialize at h
  repeat' (split at h <;> try simp only [bind, Except.bind, pure, Except.pure] at h)
  all_goals first
    | (cases h; rfl)
    | cases h

/-- Looking up a freshly appended row whose id no existing row carries
finds exactly that row. -/
theorem find_append_fresh (rows : List Product) (nid : Nat) (q : Product)
    (hq : q.id = some nid) (hfresh : ∀ r ∈ rows, r.id ≠ some nid) :
    Product.find { nextId := nid + 1, rows := rows ++ [q] } nid = some q := by
  unfold Product.find
  rw [List.find?_append]
  have h1 : rows.find? (fun r => r.id == some nid) = none := by
    rw [List.find?_eq_none]
    intro x hx
    simp [hfresh x hx]
  rw [h1]
  simp [hq]

/-- Replacing the rows whose id matches an update's id rewrites the row
a lookup finds: if some row was found at `x` and the update carries id
`x`, the lookup now finds the updated record. -/
theorem find_update_of_find (rows : List Product) (x : Nat) (r : Product)
    (hr : r.id = some x) :
    ∀ q, rows.find? (fun a => a.id == some x) = some q →
      (rows.map (fun a => if a.id == r.id then r else a)).find?
          (fun a => a.id == some x) = some r := by
  induction rows with
  | nil => simp
  | cons hd tl ih =>
    intro q h
    by_cases hhd : hd.id = some x
    · have h1 : (hd.id == r.id) = true := by rw [hr, hhd]; simp
      have h2 : (r.id == some x) = true := by rw [hr]; simp
      rw [List.map_cons, if_pos h1]
      simp only [List.find?_cons, h2]
    · have h1 : (hd.id == some x) = false := by simp [hhd]
      have h2 : ¬((hd.id == r.id) = true) := by rw [hr]; simp [hhd]
      simp only [List.find?_cons, h1] at h
      rw [List.map_cons, if_neg h2]
      simp only [List.find?_cons, h1]
      exact ih q h

/-- C5: a create request whose `Content-Type` header is missing or not
`application/json` is answered 415; with the right content type, a
body that fails deserialization is answered 400 — and a body missing
the `name` key, naming an unrecognized category, or giving a
wrong-typed value does fail deserialization, with a message naming the
problem. -/
theorem create_products_client_errors (hdr : Option String)
    (badBody pl : Payload) (db : DB) (msg nm s : String)
    (hct : hdr ≠ some "application/json")
    (hde : Product.deserialize Product.new badBody = Except.error msg)
    (hnm : pl.name = none)
    (hs : Category.fromName (strUpper s) = none) :
    (create_products hdr badBody db).1.status = 415 ∧
    (create_products (some "application/json") badBody db).1.status = 400 ∧
    Product.deserialize Product.new pl =
      Except.error "Invalid product: missing name" ∧
    Product.deserialize Product.new
      { name := some (.jstr nm), category := some (.jstr s) } =
      Except.error ("Invalid attribute: " ++ s) ∧
    Product.deserialize Product.new
      { name := some (.jstr nm), available := some (.jstr s) } =
      Except.error "Invalid type for boolean [available]" := by
  refine ⟨?_, ?_, ?_, ?_, ?_⟩
  · cases hdr with
    | none => rfl
    | some t =>
      have ht : t ≠ "application/json" := fun he => hct (by rw [he])
      simp [create_products, check_content_type, ht]
  · simp [create_products, check_content_type, hde]
  · unfold Product.deserialize
    rw [hnm]
    rfl
  · simp only [Product.deserialize, bind, Except.bind, pure, Except.pure, hs]
  · rfl

/-- C5 witness: a `text/plain` create is 415; an empty-object body is
400 for the missing `name`; an unknown category name and a string
`available` value are rejected with messages naming them. -/
theorem create_products_client_errors_witness :
    (some "text/plain" : Option String) ≠ some "application/json" ∧
    Product.deserialize Product.new emptyPayload =
      Except.error "Invalid product: missing name" ∧
    emptyPayload.name = none ∧
    Category.fromName (strUpper "SPORTS") = none ∧
    ((create_products (some "text/plain") emptyPayload db0).1.status = 415 ∧
     (create_products (some "application/json") emptyPayload db0).1.status = 400 ∧
     Product.deserialize Product.new emptyPayload =
       Except.error "Invalid product: missing name" ∧
     Product.deserialize Product.new
       { name := some (.jstr "X"), category := some (.jstr "SPORTS") } =
       Except.error ("Invalid attribute: " ++ "SPORTS") ∧
     Product.deserialize Product.new
       { name := some (.jstr "X"), available := some (.jstr "SPORTS") } =
       Except.error "Invalid type for boolean [available]") :=
  ⟨by decide, by rfl, rfl, by decide,
    create_products_client_errors (some "text/plain") emptyPayload emptyPayload
      db0 "Invalid product: missing name" "X" "SPORTS"
      (by decide) (by rfl) rfl (by decide)⟩

/-- C6: for an id with no persisted product, GET, PUT (with valid
content type) and DELETE all answer 404 with the message
`"No product found with id X"`, which includes the requested id. -/
theorem not_found_responses_404 (db : DB) (x : Nat) (data : Payload)
    (hx : Product.find db x = none) :
    get_products x db =
      { status := 404,
        body := .text ("No product found with id " ++ toString x) } ∧
    update_product x (some "application/json") data db =
      ({ status := 404,
         body := .text ("No product found with id " ++ toString x) }, db) ∧
    delete_product x db =
      ({ status := 404,
         body := .text ("No product found with id " ++ toString x) }, db) := by
  refine ⟨?_, ?_, ?_⟩ <;>
    simp [get_products, update_product, delete_product, check_content_type, hx]

/-- C6 witness: on the empty store, id 0 yields 404 from all three
routes, with the message "No product found with id 0". -/
theorem not_found_responses_404_witness :
    Product.find DB.empty 0 = none ∧
    ("No product found with id " ++ toString (0 : Nat)) =
      "No product found with id 0" ∧
    (get_products 0 DB.empty =
      { status := 404,
        body := .text ("No product found with id " ++ toString (0 : Nat)) } ∧
    update_product 0 (some "application/json") emptyPayload DB.empty =
      ({ status := 404,
         body := .text ("No product found with id " ++ toString (0 : Nat)) },
       DB.empty) ∧
    delete_product 0 DB.empty =
      ({ status := 404,
         body := .text ("No product found with id " ++ toString (0 : Nat)) },
       DB.empty)) :=
  ⟨rfl, by decide, not_found_responses_404 DB.empty 0 emptyPayload rfl⟩

/-- C7: a valid create is answered 201 with the serialized persisted
record and a `Location` header holding the new resource's read URL,
and reading the new resource back returns 200 with a body equal to
the create response's body. -/
theorem create_then_read (data : Payload) (db : DB) (p : Product)
    (hde : Product.deserialize Product.new data = Except.ok p)
    (hfresh : ∀ r ∈ db.rows, r.id ≠ some db.nextId) :
    create_products (some "application/json") data db =
      ({ status := 201,
         body := .json (Product.serialize { p with id := some db.nextId }),
         location := some ("/products/" ++ toString db.nextId) },
       { nextId := db.nextId + 1,
         rows := db.rows ++ [{ p with id := some db.nextId }] }) ∧
    get_products db.nextId (create_products (some "application/json") data db).2 =
      { status := 200,
        body := (create_products (some "application/json") data db).1.body } := by
  have hcp : create_products (some "application/json") data db =
      ({ status := 201,
         body := .json (Product.serialize { p with id := some db.nextId }),
         location := some ("/products/" ++ toString db.nextId) },
       { nextId := db.nextId + 1,
         rows := db.rows ++ [{ p with id := some db.nextId }] }) := by
    simp [create_products, check_content_type, hde, Product.create, readUrl]
  refine ⟨hcp, ?_⟩
  rw [hcp]
  simp only [get_products]
  rw [find_append_fresh db.rows db.nextId { p with id := some db.nextId } rfl hfresh]

/-- C7 witness: creating the sample product on the empty store answers
201 with `Location` `/products/1`, and reading id 1 back returns the
same body. -/
theorem create_then_read_witness :
    Product.deserialize Product.new (Product.serialize fedora) =
      Except.ok { fedora with id := none } ∧
    (∀ r ∈ DB.empty.rows, r.id ≠ some DB.empty.nextId) ∧
    (create_products (some "application/json") (Product.serialize fedora) DB.empty =
      ({ status := 201,
         body := .json (Product.serialize
           { { fedora with id := none } with id := some DB.empty.nextId }),
         location := some ("/products/" ++ toString DB.empty.nextId) },
       { nextId := DB.empty.nextId + 1,
         rows := DB.empty.rows ++
           [{ { fedora with id := none } with id := some DB.empty.nextId }] }) ∧
    get_products DB.empty.nextId
        (create_products (some "application/json") (Product.serialize fedora) DB.empty).2 =
      { status := 200,
        body := (create_products (some "application/json")
          (Product.serialize fedora) DB.empty).1.body }) :=
  ⟨by rfl, by simp [DB.empty],
    create_then_read (Product.serialize fedora) DB.empty { fedora with id := none }
      (by rfl) (by simp [DB.empty])⟩

/-- C8: a PUT on an existing id with a valid body deserializes the
body into the found record, preserving its id (which is the requested
id), answers 200 with the serialized updated record, stores it under
the same id — and a body that differs from the stored record only in
`description` yields exactly the stored record with the new
description, every other field retaining its previous value. -/
theorem update_product_preserves_id (x : Nat) (data : Payload) (db : DB)
    (q r : Product) (nd : String)
    (hfind : Product.find db x = some q)
    (hde : Product.deserialize q data = Except.ok r) :
    r.id = q.id ∧ q.id = some x ∧
    update_product x (some "application/json") data db =
      ({ status := 200, body := .json (Product.serialize r) },
       Product.update r db) ∧
    Product.find (Product.update r db) x = some r ∧
    Product.deserialize q (Product.serialize { q with description := nd }) =
      Except.ok { q with description := nd } := by
  have hqid : q.id = some x := by
    have h := List.find?_some hfind
    simpa using h
  have hrid : r.id = q.id := deserialize_ok_id q data r hde
  refine ⟨hrid, hqid, ?_, ?_, ?_⟩
  · simp [update_product, check_content_type, hfind, hde]
  · unfold Product.update Product.find
    exact find_update_of_find db.rows x r (hrid.trans hqid) q hfind
  · exact deserialize_serialize q { q with description := nd }

/-- C8 witness: updating the stored sample product with only a changed
description answers 200 and stores the record with the same id, same
name, price, availability and category, and the new description. -/
theorem update_product_preserves_id_witness :
    Product.find db0 1 = some { fedora with id := some 1 } ∧
    Product.deserialize { fedora with id := some 1 }
      (Product.serialize { { fedora with id := some 1 } with description := "New" }) =
      Except.ok { { fedora with id := some 1 } with description := "New" } ∧
    (({ { fedora with id := some 1 } with description := "New" } : Product).id =
        ({ fedora with id := some 1 } : Product).id ∧
    ({ fedora with id := some 1 } : Product).id = some 1 ∧
    update_product 1 (some "application/json")
        (Product.serialize { { fedora with id := some 1 } with description := "New" }) db0 =
      ({ status := 200,
         body := .json (Product.serialize
           { { fedora with id := some 1 } with description := "New" }) },
       Product.update { { fedora with id := some 1 } with description := "New" } db0) ∧
    Product.find
        (Product.update { { fedora with id := some 1 } with description := "New" } db0) 1 =
      some { { fedora with id := some 1 } with description := "New" } ∧
    Product.deserialize { fedora with id := some 1 }
        (Product.serialize { { fedora with id := some 1 } with description := "New" }) =
      Except.ok { { fedora with id := some 1 } with description := "New" }) :=
  ⟨by rfl, by rfl,
    update_product_preserves_id 1
      (Product.serialize { { fedora with id := some 1 } with description := "New" })
      db0 { fedora with id := some 1 }
      { { fedora with id := some 1 } with description := "New" } "New"
      (by rfl) (by rfl)⟩

/-- C9: a POST or PUT that fails with a client input error (415 wrong
or missing content type, 400 failed deserialization) leaves the
persisted store exactly as it was. -/
theorem client_errors_no_mutation (hdr : Option String) (data : Payload)
    (db : DB) (x : Nat) :
    ((create_products hdr data db).1.status = 400 ∨
        (create_products hdr data db).1.status = 415 →
      (create_products hdr data db).2 = db) ∧
    ((update_product x hdr data db).1.status = 400 ∨
        (update_product x hdr data db).1.status = 415 →
      (update_product x hdr data db).2 = db) := by
  constructor
  · intro h
    rcases hct : check_content_type hdr "application/json" with _ | resp
    · rcases hd2 : Product.deserialize Product.new data with msg | p
      · simp [create_products, hct, hd2]
      · simp [create_products, hct, hd2, Product.create] at h
    · simp [create_products, hct]
  · intro h
    rcases hct : check_content_type hdr "application/json" with _ | resp
    · rcases hf : Product.find db x with _ | q
      · simp [update_product, hct, hf]
      · rcases hd2 : Product.deserialize q data with msg | p
        · simp [update_product, hct, hf, hd2]
        · simp [update_product, hct, hf, hd2] at h
    · simp [update_product, hct]

/-- C9 witness: a wrong-content-type create and a missing-name update
each leave the concrete store untouched. -/
theorem client_errors_no_mutation_witness :
    (create_products (some "text/plain") (Product.serialize fedora) db0).1.status = 415 ∧
    (create_products (some "text/plain") (Product.serialize fedora) db0).2 = db0 ∧
    (update_product 1 (some "application/json") emptyPayload db0).1.status = 400 ∧
    (update_product 1 (some "application/json") emptyPayload db0).2 = db0 :=
  ⟨rfl,
    (client_errors_no_mutation (some "text/plain") (Product.serialize fedora) db0 1).1
      (Or.inr rfl),
    rfl,
    (client_errors_no_mutation (some "application/json") emptyPayload db0 1).2
      (Or.inl rfl)⟩
